import Mathlib

/-!
Verification development for the parking-zones repository.

This file gives a shallow embedding of the core of the repository:
the static configuration in `config.py`, the zone-geometry aggregator
`process_street_geometries` in `map_utils.py`, and the
`ParkingZoneProcessor` orchestration (`__init__`/`_validate_config`,
`fetch_map_data`, `process_zones`, `get_missing_streets`) in
`parking_zones.py`.

Modelling conventions:
- Python floats are modelled as `Rat`.
- Python dicts are modelled as insertion-ordered association lists;
  `dictGet` is `dict.get`, `dictInsert` is `dict[k] = v`.
- Python sets of strings are modelled as `Finset String`.
- Exceptions are modelled with `Except`; distinct Python exception
  classes that matter to the claims (`ConnectionError` vs `ValueError`)
  are distinguished by the `FetchErr` inductive, all other errors carry
  their message string.
- The external collaborator `ox.graph_from_point` is modelled as a
  function from the attempt number to an outcome (a graph, or an
  exception with a message), so that retry behaviour can be stated.
- Python truthiness is modelled where the source relies on it:
  `x or default` substitutes the default for `None` and for empty
  tuples/strings, `if not graph` is true for `None` and for a
  zero-node graph, `if not street_name` is true for `None`, `""` and
  `[]`, and `if zone_color` is false for `""`.
-/

namespace PZ

/-- Models Python `str.lower` on a single character for the character
ranges this program actually uses: ASCII letters and the Cyrillic
block U+0410..U+042F plus Ё (U+0401). -/
def pyLowerChar (c : Char) : Char :=
  if (65 ≤ c.toNat ∧ c.toNat ≤ 90) ∨ (0x410 ≤ c.toNat ∧ c.toNat ≤ 0x42F) then
    Char.ofNat (c.toNat + 32)
  else if c.toNat = 0x401 then Char.ofNat 0x451
  else c

/-- Models Python `str.lower` (for the program's character ranges). -/
def pyLower (s : String) : String :=
  String.mk (s.data.map pyLowerChar)

/-- Does the character list start with the given needle. -/
def startsWithList : List Char → List Char → Bool
  | _, [] => true
  | [], _ :: _ => false
  | c :: cs, n :: ns => c == n && startsWithList cs ns

/-- Does the character list contain the needle as a contiguous run. -/
def hasSubList : List Char → List Char → Bool
  | [], needle => needle.isEmpty
  | c :: t, needle => startsWithList (c :: t) needle || hasSubList t needle

/-- Models `"connection" in str(e).lower()` from
`ParkingZoneProcessor.fetch_map_data`. -/
def containsConnection (msg : String) : Bool :=
  hasSubList (pyLower msg).data "connection".data

/-- A value that may appear as a coordinate in a dynamically typed
target point: a number (`int`/`float`), or something that is not a
number (`isinstance(coord, (int, float))` fails). -/
inductive PyScalar where
  | num (q : Rat)
  | nonNum
deriving DecidableEq

/-- Models `isinstance(coord, (int, float))`. -/
def isNum : PyScalar → Bool
  | .num _ => true
  | .nonNum => false

/-- `DEFAULTS['target_point'] = (45.38096, 20.39373)` from `config.py`. -/
def DEFAULT_TARGET_POINT : List PyScalar :=
  [PyScalar.num ((4538096 : Rat) / 100000), PyScalar.num ((2039373 : Rat) / 100000)]

/-- `DEFAULTS['tile_provider'] = 'openstreetmap'` from `config.py`. -/
def DEFAULT_TILE_PROVIDER : String := "openstreetmap"

/-- The key set of `TILE_PROVIDERS` from `config.py`; membership of
`self.tile_provider` in `get_tile_provider('all')` is key membership
in this dict. -/
def TILE_PROVIDER_KEYS : List String :=
  ["openstreetmap", "cyclosm", "cartodb_positron"]

/-- `PARKING_ZONES` from `config.py`: zone colour to street-name list. -/
def PARKING_ZONES : List (String × List String) :=
  [("red", ["Пупинова", "Светосавска", "Јеврејска", "Гимназијска",
            "Краља Александра I Карађорђевића", "Краља Петра Првог",
            "Сарајлијина", "Немањина", "Др Славка Жупанског"]),
   ("yellow", ["Слободана Бурсаћа", "Савезничка", "Цара Душана",
               "Мирослава Тирша"]),
   ("green", ["Кеј другог октобра", "Обала Соње Маринковић", "Обилићева",
              "Петефијева", "Даничићева", "Марка Орешковића",
              "Иве Лоле Рибара", "Косте Абрашевића", "20. октобра",
              "Југ Богдана", "Саве Текелије"])]

/-- `ZONE_COLORS` from `config.py` (zone colour to hex value);
`process_street_geometries` iterates its keys. -/
def ZONE_COLORS : List (String × String) :=
  [("red", "#FF0000"), ("yellow", "#FFFF00"), ("green", "#00FF00")]

/-- `ERROR_MESSAGES['invalid_coordinates']` from `config.py`. -/
def invalidCoordinatesMsg : String :=
  "Invalid coordinates. Please provide latitude and longitude as numbers."

/-- `ERROR_MESSAGES['tile_provider_not_found']` from `config.py`,
with the provider list already formatted in. -/
def tileProviderNotFoundMsg : String :=
  "Tile provider not found. Available providers are: openstreetmap, cyclosm, cartodb_positron"

/-- `ERROR_MESSAGES['map_data_fetch_failed']` from `config.py`. -/
def mapDataFetchFailedMsg : String :=
  "Failed to fetch map data. Please check your internet connection and try again."

/-- `ERROR_MESSAGES['no_streets_found']` from `config.py`. -/
def noStreetsFoundMsg : String :=
  "No streets found in the specified area. Try increasing the search radius or check the coordinates."

/-- The `ValueError` message of `process_street_geometries` on an
empty or missing graph. -/
def emptyGraphMsg : String :=
  "Empty graph provided. Cannot process street geometries."

/-- The `ValueError` message of `process_zones` when no graph has been
fetched. -/
def noMapDataMsg : String :=
  "No map data available. Call fetch_map_data() first."

/-- The `ValueError` message `process_zones` wraps aggregator
failures in. -/
def processZonesFailMsg : String :=
  "Failed to process parking zones. Please check the input data and try again."

/-- Models Python `dict.get` on an insertion-ordered association list. -/
def dictGet (d : List (String × String)) (k : String) : Option String :=
  match d with
  | [] => none
  | (k2, v) :: rest => if k2 = k then some v else dictGet rest k

/-- Models Python `dict[k] = v`: overwrite in place if the key exists,
else append, preserving insertion order. -/
def dictInsert (d : List (String × String)) (k v : String) : List (String × String) :=
  match d with
  | [] => [(k, v)]
  | (k2, v2) :: rest =>
      if k2 = k then (k, v) :: rest else (k2, v2) :: dictInsert rest k v

/-- Models `ParkingZoneProcessor._prepare_street_to_zone_lookup`:
for every colour and street, `street_map[street.lower()] = color`. -/
def prepare_street_to_zone_lookup : List (String × String) :=
  PARKING_ZONES.foldl
    (fun m p => p.2.foldl (fun m2 st => dictInsert m2 (pyLower st) p.1) m) []

/-- A graph node's attribute dict: `'y'` is latitude, `'x'` is
longitude, as in OSMnx graphs. -/
structure Node where
  y : Rat
  x : Rat
deriving DecidableEq

/-- An edge's `name` attribute: a single string or a list of
candidate names. -/
inductive NameAttr where
  | one (s : String)
  | many (l : List String)
deriving DecidableEq

/-- A graph edge as iterated by `graph.edges(data=True)`: the two
endpoint node ids and the optional `name` attribute. -/
structure Edge where
  u : Nat
  v : Nat
  name : Option NameAttr
deriving DecidableEq

/-- The street graph returned by the collaborator: a node dict
(id to attributes) and an edge list. `len(graph)` is the node count. -/
structure Graph where
  nodes : List (Nat × Node)
  edges : List Edge
deriving DecidableEq

/-- Models `graph.nodes[u]`: `none` is a `KeyError`. -/
def lookupNode (nodes : List (Nat × Node)) (k : Nat) : Option Node :=
  match nodes with
  | [] => none
  | (k2, n) :: rest => if k2 = k then some n else lookupNode rest k

/-- Models `if not street_name` on the result of `data.get('name')`:
true for `None`, `""` and `[]`. -/
def nameFalsy : Option NameAttr → Bool
  | none => true
  | some (.one s) => s == ""
  | some (.many l) => l.isEmpty

/-- Models `[street_name] if isinstance(street_name, str) else street_name`. -/
def candidateNames : Option NameAttr → List String
  | none => []
  | some (.one s) => [s]
  | some (.many l) => l

/-- One `(line_points, name)` record appended to a zone's list. -/
abbrev GeomRec := List (Rat × Rat) × String

/-- The `zone_geometries` dict: zone colour to list of records,
insertion ordered. -/
abbrev ZoneGeoms := List (String × List GeomRec)

/-- Models `zone_geometries[zone_color].append(rec)`: `none` is the
`KeyError` raised when `zone_color` is not a key. -/
def updList (zg : ZoneGeoms) (key : String) (r : GeomRec) : Option ZoneGeoms :=
  match zg with
  | [] => none
  | (k, rs) :: rest =>
      if k = key then some ((k, rs ++ [r]) :: rest)
      else
        match updList rest key r with
        | some rest2 => some ((k, rs) :: rest2)
        | none => none

/-- The inner candidate-name loop of `process_street_geometries`:
for each candidate, look its lower-cased form up in the index; on a
(truthy) hit build the two endpoint coordinate pairs, append the
record, add the lower-cased name to the found set and `break`; a
`KeyError` (missing endpoint or unknown zone key) makes the loop
`continue` with the next candidate. -/
def matchCands (nodes : List (Nat × Node)) (idx : List (String × String))
    (u v : Nat) : ZoneGeoms × Finset String → List String → ZoneGeoms × Finset String
  | acc, [] => acc
  | acc, name :: rest =>
      match dictGet idx (pyLower name) with
      | none => matchCands nodes idx u v acc rest
      | some zone =>
          if zone == "" then matchCands nodes idx u v acc rest
          else
            match lookupNode nodes u, lookupNode nodes v with
            | some nu, some nv =>
                match updList acc.1 zone ([(nu.y, nu.x), (nv.y, nv.x)], name) with
                | some zg2 => (zg2, insert (pyLower name) acc.2)
                | none => matchCands nodes idx u v acc rest
            | _, _ => matchCands nodes idx u v acc rest

/-- The per-edge body of the loop in `process_street_geometries`:
skip the edge when its `name` attribute is falsy, else run the
candidate loop. -/
def processEdge (nodes : List (Nat × Node)) (idx : List (String × String))
    (acc : ZoneGeoms × Finset String) (e : Edge) : ZoneGeoms × Finset String :=
  if nameFalsy e.name then acc
  else matchCands nodes idx e.u e.v acc (candidateNames e.name)

/-- Models `{color: [] for color in ZONE_COLORS}`. -/
def initZoneGeometries : ZoneGeoms :=
  ZONE_COLORS.map (fun p => (p.1, []))

/-- Models `map_utils.process_street_geometries`. The input graph is
`Option` because the Python function also accepts `None`
(`if not graph or len(graph) == 0` raises). In the typed model no
exception escapes the edge loop, so the outer `except` wrapper of the
source is unreachable and the function returns the fold result. -/
def process_street_geometries (graph : Option Graph)
    (streets_to_zone : List (String × String)) :
    Except String (ZoneGeoms × Finset String) :=
  match graph with
  | none => .error emptyGraphMsg
  | some g =>
      if g.nodes.isEmpty then .error emptyGraphMsg
      else .ok (g.edges.foldl (processEdge g.nodes streets_to_zone)
                 (initZoneGeometries, ∅))

/-- The mutable fields of a `ParkingZoneProcessor` instance. -/
structure ProcState where
  target_point : List PyScalar
  tile_provider : String
  street_to_zone : List (String × String)
  graph : Option Graph
  zone_geometries : ZoneGeoms
  found_streets : Finset String

/-- Models `if not self.graph` truthiness: false for `None` and for a
zero-node graph. -/
def graphTruthy : Option Graph → Bool
  | none => false
  | some g => !g.nodes.isEmpty

/-- The structural part of `_validate_config`'s target-point check:
a 2-element sequence whose members are numbers. The
`isinstance(self.target_point, (tuple, list))` part is carried by the
`List PyScalar` type of the model. -/
def validStructure (p : List PyScalar) : Bool :=
  p.length == 2 && p.all isNum

/-- Models `target_point or DEFAULTS['target_point']`: `None` and the
empty tuple are falsy and are replaced by the default. -/
def resolveTarget : Option (List PyScalar) → List PyScalar
  | none => DEFAULT_TARGET_POINT
  | some p => if p.isEmpty then DEFAULT_TARGET_POINT else p

/-- Models `tile_provider or DEFAULTS['tile_provider']`: `None` and
the empty string are falsy and are replaced by the default. -/
def resolveProvider : Option String → String
  | none => DEFAULT_TILE_PROVIDER
  | some s => if s == "" then DEFAULT_TILE_PROVIDER else s

/-- Models `ParkingZoneProcessor.__init__` followed by
`_validate_config`: resolve the two optional arguments, validate the
target point structurally, validate provider membership, then set up
the instance fields. -/
def initProcessor (tp : Option (List PyScalar)) (prov : Option String) :
    Except String ProcState :=
  let target := resolveTarget tp
  let provider := resolveProvider prov
  if validStructure target then
    if provider ∈ TILE_PROVIDER_KEYS then
      .ok { target_point := target, tile_provider := provider,
            street_to_zone := prepare_street_to_zone_lookup,
            graph := none, zone_geometries := [], found_streets := ∅ }
    else .error tileProviderNotFoundMsg
  else .error invalidCoordinatesMsg

/-- Did construction succeed. -/
def isOkE : Except String ProcState → Bool
  | .ok _ => true
  | .error _ => false

/-- The tile provider of a successfully constructed processor. -/
def providerOf : Except String ProcState → Option String
  | .ok s => some s.tile_provider
  | .error _ => none

/-- The target point of a successfully constructed processor. -/
def targetOf : Except String ProcState → Option (List PyScalar)
  | .ok s => some s.target_point
  | .error _ => none

/-- Models `ParkingZoneProcessor.process_zones`: raise if no (truthy)
graph is stored, else run the aggregator and store its two outputs;
an aggregator failure is wrapped into a `ValueError` and the fields
are left untouched. The returned pair is (post state, outcome). -/
def process_zones (s : ProcState) : ProcState × Except String Unit :=
  if graphTruthy s.graph then
    match process_street_geometries s.graph s.street_to_zone with
    | .ok (zg, f) =>
        ({ s with zone_geometries := zg, found_streets := f }, .ok ())
    | .error _ => (s, .error processZonesFailMsg)
  else (s, .error noMapDataMsg)

/-- Models `ParkingZoneProcessor.get_missing_streets`:
`set(self.street_to_zone.keys()) - self.found_streets`. -/
def get_missing_streets (s : ProcState) : Finset String :=
  (s.street_to_zone.map Prod.fst).toFinset \ s.found_streets

/-- One outcome of a call to the graph-retrieval collaborator
`ox.graph_from_point`: a returned graph or a raised exception with
its message. -/
inductive FetchOutcome where
  | ok (g : Graph)
  | exn (msg : String)
deriving DecidableEq

/-- The two exception classes `fetch_map_data` can raise after
exhausting retries: `ConnectionError` or `ValueError`. -/
inductive FetchErr where
  | connErr (msg : String)
  | noData (msg : String)
deriving DecidableEq

/-- An outcome that `fetch_map_data` treats as a failed attempt: an
exception, or a graph with zero nodes. -/
def failOutcome : FetchOutcome → Prop
  | .ok g => g.nodes = []
  | .exn _ => True

/-- How `fetch_map_data` classifies the final failure: an exception
whose lower-cased text contains "connection" becomes a
`ConnectionError`, every other failure (including the zero-node
graph case) becomes the no-streets `ValueError`. -/
def classifyFailure : FetchOutcome → FetchErr
  | .ok _ => .noData noStreetsFoundMsg
  | .exn msg =>
      if containsConnection msg then .connErr mapDataFetchFailedMsg
      else .noData noStreetsFoundMsg

/-- The retry loop of `fetch_map_data`
(`for attempt in range(1, max_retries + 1)`), threading the
`self.graph` field. The collaborator is modelled as a function from
the attempt number to an outcome. Returns the final graph field, the
overall outcome, and the number of fetch attempts made. -/
def fetchLoop (f : Int → FetchOutcome) (mr : Int) (attempt : Int)
    (g : Option Graph) : Option Graph × Except FetchErr Unit × Nat :=
  if _h : mr < attempt then (g, .ok (), 0)
  else
    match f attempt with
    | .ok newG =>
        if newG.nodes.isEmpty then
          if attempt = mr then (some newG, .error (.noData noStreetsFoundMsg), 1)
          else
            let r := fetchLoop f mr (attempt + 1) (some newG)
            (r.1, r.2.1, r.2.2 + 1)
        else (some newG, .ok (), 1)
    | .exn msg =>
        if attempt = mr then (g, .error (classifyFailure (.exn msg)), 1)
        else
          let r := fetchLoop f mr (attempt + 1) g
          (r.1, r.2.1, r.2.2 + 1)
termination_by (mr + 1 - attempt).toNat
decreasing_by all_goals (simp_wf; omega)

/-- Models `ParkingZoneProcessor.fetch_map_data` on a processor
state: run the retry loop from attempt 1 with the stored graph. -/
def fetch_map_data (f : Int → FetchOutcome) (mr : Int) (s : ProcState) :
    ProcState × Except FetchErr Unit × Nat :=
  let r := fetchLoop f mr 1 s.graph
  ({ s with graph := r.1 }, r.2.1, r.2.2)

/-! ### Helper lemmas about the aggregator -/

/-- A successful in-place append does not change the key list of the
zone-geometry dict. -/
lemma updList_keys : ∀ (zg : ZoneGeoms) (key : String) (r : GeomRec)
    (zg2 : ZoneGeoms), updList zg key r = some zg2 →
    zg2.map Prod.fst = zg.map Prod.fst := by
  intro zg key r
  induction zg with
  | nil => intro zg2 h; simp [updList] at h
  | cons p rest ih =>
    obtain ⟨k, rs⟩ := p
    intro zg2 h
    simp only [updList] at h
    by_cases hk : k = key
    · rw [if_pos hk] at h
      cases h
      simp
    · rw [if_neg hk] at h
      rcases hrest : updList rest key r with _ | rest2
      · rw [hrest] at h; cases h
      · rw [hrest] at h
        cases h
        simpa using ih rest2 hrest

/-- In-place append succeeds exactly when the key is present. -/
lemma updList_isSome : ∀ (zg : ZoneGeoms) (key : String) (r : GeomRec),
    key ∈ zg.map Prod.fst → ∃ zg2, updList zg key r = some zg2 := by
  intro zg key r
  induction zg with
  | nil => intro h; simp at h
  | cons p rest ih =>
    obtain ⟨k, rs⟩ := p
    intro h
    simp only [updList]
    by_cases hk : k = key
    · exact ⟨_, by rw [if_pos hk]⟩
    · have hmem : key ∈ rest.map Prod.fst := by
        simpa [hk, Ne.symm hk] using h
      obtain ⟨rest2, hrest⟩ := ih hmem
      exact ⟨(k, rs) :: rest2, by rw [if_neg hk, hrest]⟩

/-- The candidate loop does not change the key list of the
zone-geometry dict. -/
lemma matchCands_keys (nodes : List (Nat × Node)) (idx : List (String × String))
    (u v : Nat) (acc : ZoneGeoms × Finset String) :
    ∀ l : List String,
      ((matchCands nodes idx u v acc l).1).map Prod.fst = (acc.1).map Prod.fst := by
  intro l
  induction l with
  | nil => rw [matchCands]
  | cons name rest ih =>
    rw [matchCands]
    split
    · exact ih
    · split
      · exact ih
      · split
        · split
          · next zg2 heq => simpa using updList_keys _ _ _ _ heq
          · exact ih
        · exact ih

/-- The per-edge step does not change the key list of the
zone-geometry dict. -/
lemma processEdge_keys (nodes : List (Nat × Node)) (idx : List (String × String))
    (acc : ZoneGeoms × Finset String) (e : Edge) :
    ((processEdge nodes idx acc e).1).map Prod.fst = (acc.1).map Prod.fst := by
  rw [processEdge]
  split
  · rfl
  · exact matchCands_keys nodes idx e.u e.v acc (candidateNames e.name)

/-- The whole edge fold does not change the key list of the
zone-geometry dict. -/
lemma foldl_keys (nodes : List (Nat × Node)) (idx : List (String × String)) :
    ∀ (edges : List Edge) (acc : ZoneGeoms × Finset String),
      ((edges.foldl (processEdge nodes idx) acc).1).map Prod.fst = (acc.1).map Prod.fst := by
  intro edges
  induction edges with
  | nil => intro acc; rfl
  | cons e rest ih =>
    intro acc
    rw [List.foldl_cons, ih (processEdge nodes idx acc e), processEdge_keys]

/-- A successful dict lookup means the key is present. -/
lemma dictGet_mem : ∀ (d : List (String × String)) (k v : String),
    dictGet d k = some v → k ∈ d.map Prod.fst := by
  intro d k v
  induction d with
  | nil => intro h; simp [dictGet] at h
  | cons p rest ih =>
    obtain ⟨k2, v2⟩ := p
    intro h
    simp only [dictGet] at h
    split at h
    · next hk => simp [hk]
    · simpa using Or.inr (ih h)

/-- The candidate loop only adds index keys to the found set. -/
lemma matchCands_found_subset (nodes : List (Nat × Node))
    (idx : List (String × String)) (u v : Nat) (acc : ZoneGeoms × Finset String)
    (hacc : acc.2 ⊆ (idx.map Prod.fst).toFinset) :
    ∀ l : List String,
      (matchCands nodes idx u v acc l).2 ⊆ (idx.map Prod.fst).toFinset := by
  intro l
  induction l with
  | nil => rw [matchCands]; exact hacc
  | cons name rest ih =>
    rw [matchCands]
    split
    · exact ih
    · next zone hd =>
      split
      · exact ih
      · split
        · split
          · simp only
            exact Finset.insert_subset
              (List.mem_toFinset.mpr (dictGet_mem idx _ zone hd)) hacc
          · exact ih
        · exact ih

/-- The per-edge step only adds index keys to the found set. -/
lemma processEdge_found_subset (nodes : List (Nat × Node))
    (idx : List (String × String)) (acc : ZoneGeoms × Finset String) (e : Edge)
    (hacc : acc.2 ⊆ (idx.map Prod.fst).toFinset) :
    (processEdge nodes idx acc e).2 ⊆ (idx.map Prod.fst).toFinset := by
  rw [processEdge]
  split
  · exact hacc
  · exact matchCands_found_subset nodes idx e.u e.v acc hacc _

/-- The whole edge fold only adds index keys to the found set. -/
lemma foldl_found_subset (nodes : List (Nat × Node)) (idx : List (String × String)) :
    ∀ (edges : List Edge) (acc : ZoneGeoms × Finset String),
      acc.2 ⊆ (idx.map Prod.fst).toFinset →
      ((edges.foldl (processEdge nodes idx) acc).2) ⊆ (idx.map Prod.fst).toFinset := by
  intro edges
  induction edges with
  | nil => intro acc hacc; exact hacc
  | cons e rest ih =>
    intro acc hacc
    rw [List.foldl_cons]
    exact ih _ (processEdge_found_subset nodes idx acc e hacc)

/-- With an endpoint missing from the node dict, every candidate of
the edge falls into the `KeyError` branch, so the whole candidate
loop is a no-op. -/
lemma matchCands_missing_node (nodes : List (Nat × Node))
    (idx : List (String × String)) (u v : Nat) (acc : ZoneGeoms × Finset String)
    (hmiss : lookupNode nodes u = none ∨ lookupNode nodes v = none) :
    ∀ l : List String, matchCands nodes idx u v acc l = acc := by
  intro l
  induction l with
  | nil => rw [matchCands]
  | cons name rest ih =>
    rw [matchCands]
    split
    · exact ih
    · split
      · exact ih
      · split
        · next nu nv hu hv =>
          rcases hmiss with hm | hm
          · rw [hm] at hu; simp at hu
          · rw [hm] at hv; simp at hv
        · exact ih

/-- The aggregator on a graph with at least one node returns the edge
fold, wrapped in `ok`. -/
lemma psg_ok_of_nonempty (g : Graph) (idx : List (String × String))
    (h : g.nodes ≠ []) :
    process_street_geometries (some g) idx =
      .ok (g.edges.foldl (processEdge g.nodes idx) (initZoneGeometries, ∅)) := by
  have h2 : g.nodes.isEmpty = false := by
    cases hn : g.nodes with
    | nil => exact absurd hn h
    | cons a t => rfl
  simp [process_street_geometries, h2]

/-- The found set of a successful aggregation only holds index keys. -/
lemma psg_found_subset (og : Option Graph) (idx : List (String × String))
    (zg : ZoneGeoms) (f : Finset String)
    (h : process_street_geometries og idx = .ok (zg, f)) :
    f ⊆ (idx.map Prod.fst).toFinset := by
  cases og with
  | none => simp [process_street_geometries] at h
  | some g =>
    rw [process_street_geometries] at h
    split at h
    · simp at h
    · injection h with h2
      have hf : (g.edges.foldl (processEdge g.nodes idx) (initZoneGeometries, ∅)).2 = f := by
        rw [h2]
      rw [← hf]
      exact foldl_found_subset g.nodes idx g.edges (initZoneGeometries, ∅) (by simp)

/-- A successful `process_zones` run stores an aggregator result and
leaves the index unchanged. -/
lemma process_zones_ok (s s' : ProcState) (h : process_zones s = (s', .ok ())) :
    ∃ zg f, process_street_geometries s.graph s.street_to_zone = .ok (zg, f) ∧
      s'.street_to_zone = s.street_to_zone ∧ s'.found_streets = f := by
  rw [process_zones] at h
  split at h
  · cases hagg : process_street_geometries s.graph s.street_to_zone with
    | error e => rw [hagg] at h; simp at h
    | ok p =>
      obtain ⟨zg, f⟩ := p
      rw [hagg] at h
      simp only [] at h
      have hs : ({ s with zone_geometries := zg, found_streets := f } : ProcState) = s' :=
        congrArg Prod.fst h
      refine ⟨zg, f, rfl, ?_, ?_⟩
      · rw [← hs]
      · rw [← hs]
  · simp at h

/-! ### Claim theorems: the aggregator -/

/-- Concrete one-node, zero-edge graph for the C2 counterexample. -/
def c2G : Graph := ⟨[(1, ⟨45, 20⟩)], []⟩

/-- Concrete index whose value set is disjoint from the configured
zone colours, for the C2 counterexample. -/
def c2Idx : List (String × String) := [("a", "blue")]

/-- C2 counterexample: the aggregator initializes one sequence per key
of the configured `ZONE_COLORS` dict, not per zone identifier in the
index's value set; with the index `[("a", "blue")]` the result's key
set is still red/yellow/green and differs from the index's value set
`(here, the singleton "blue")`. -/
theorem c2_counterexample :
    process_street_geometries (some c2G) c2Idx = .ok (initZoneGeometries, ∅) ∧
    (initZoneGeometries.map Prod.fst).toFinset ≠ (c2Idx.map Prod.snd).toFinset := by
  constructor
  · rfl
  · decide

/-- C2 amended: for every non-empty graph and every index, the
zone-geometry collection returned by `process_street_geometries` has
exactly the key list of the configured `ZONE_COLORS` dict (one,
possibly empty, sequence per configured zone colour), independent of
the index's value set. -/
theorem c2_keys_fixed (g : Graph) (idx : List (String × String))
    (h : g.nodes ≠ []) :
    ∃ zg f, process_street_geometries (some g) idx = .ok (zg, f) ∧
      zg.map Prod.fst = ZONE_COLORS.map Prod.fst := by
  refine ⟨_, _, psg_ok_of_nonempty g idx h, ?_⟩
  rw [foldl_keys g.nodes idx g.edges (initZoneGeometries, ∅)]
  simp [initZoneGeometries]

/-- C2 witness: the amended theorem applied at the concrete inputs of
the counterexample. -/
theorem c2_witness :
    ∃ zg f, process_street_geometries (some c2G) c2Idx = .ok (zg, f) ∧
      zg.map Prod.fst = ZONE_COLORS.map Prod.fst :=
  c2_keys_fixed c2G c2Idx (by decide)

/-- The candidate loop with unmatched names in front of a matched one:
the unmatched names are skipped, the first matched (truthy, present,
with both endpoints resolvable) candidate appends exactly one record
with the original name and stops the loop; candidates after it are
never examined. -/
lemma matchCands_first_match (nodes : List (Nat × Node))
    (idx : List (String × String)) (u v : Nat) (zg zg2 : ZoneGeoms)
    (found : Finset String) (post : List String) (c z : String) (nu nv : Node)
    (hc : dictGet idx (pyLower c) = some z) (hz : z ≠ "")
    (hupd : updList zg z ([(nu.y, nu.x), (nv.y, nv.x)], c) = some zg2)
    (hu : lookupNode nodes u = some nu) (hv : lookupNode nodes v = some nv) :
    ∀ pre : List String, (∀ x ∈ pre, dictGet idx (pyLower x) = none) →
      matchCands nodes idx u v (zg, found) (pre ++ c :: post) =
        (zg2, insert (pyLower c) found) := by
  intro pre
  induction pre with
  | nil =>
    intro _
    rw [List.nil_append, matchCands]
    simp [hc, hz, hu, hv, hupd]
  | cons x xs ih =>
    intro hpre
    rw [List.cons_append, matchCands]
    simp only [hpre x (List.mem_cons_self x xs)]
    exact ih (fun y hy => hpre y (List.mem_cons_of_mem x hy))

/-- C4: for an edge whose name attribute is a list of candidates, the
candidates are checked in order; the first whose lower-cased form is a
key of the index (with both endpoints present in the node dict and
the zone a key of the collection) contributes exactly one record with
the two endpoint coordinates in (lat, lon) order and the original,
unnormalized name, the lower-cased name is added to the found set,
and the remaining candidates are not matched (the result does not
depend on them). -/
theorem c4_first_match_wins (nodes : List (Nat × Node))
    (idx : List (String × String)) (u v : Nat) (zg : ZoneGeoms)
    (found : Finset String) (pre post : List String) (c z : String)
    (nu nv : Node)
    (hpre : ∀ x ∈ pre, dictGet idx (pyLower x) = none)
    (hc : dictGet idx (pyLower c) = some z) (hz : z ≠ "")
    (hzk : z ∈ zg.map Prod.fst)
    (hu : lookupNode nodes u = some nu) (hv : lookupNode nodes v = some nv) :
    ∃ zg2, updList zg z ([(nu.y, nu.x), (nv.y, nv.x)], c) = some zg2 ∧
      processEdge nodes idx (zg, found) ⟨u, v, some (.many (pre ++ c :: post))⟩ =
        (zg2, insert (pyLower c) found) := by
  obtain ⟨zg2, hupd⟩ := updList_isSome zg z ([(nu.y, nu.x), (nv.y, nv.x)], c) hzk
  refine ⟨zg2, hupd, ?_⟩
  rw [processEdge]
  have hfalsy : nameFalsy (some (.many (pre ++ c :: post))) = false := by
    simp [nameFalsy]
  rw [hfalsy]
  simp only [Bool.false_eq_true, if_false, candidateNames]
  exact matchCands_first_match nodes idx u v zg zg2 found post c z nu nv
    hc hz hupd hu hv pre hpre

/-- Concrete node dict for the C4 witness. -/
def c4Nodes : List (Nat × Node) := [(1, ⟨45, 20⟩), (2, ⟨46, 21⟩)]

/-- Concrete index for the C4 witness: only the second alias is
configured. -/
def c4Idx : List (String × String) := [("улица б", "green")]

/-- C4 witness: the theorem applied to the spec's own example, an edge
named `["Улица А", "Улица Б"]` where only "Улица Б" is in the index:
it contributes exactly once, under the original name "Улица Б". -/
theorem c4_witness :
    ∃ zg2, updList initZoneGeometries "green" ([(45, 20), (46, 21)], "Улица Б") = some zg2 ∧
      processEdge c4Nodes c4Idx (initZoneGeometries, ∅)
          ⟨1, 2, some (.many (["Улица А"] ++ "Улица Б" :: []))⟩ =
        (zg2, insert (pyLower "Улица Б") ∅) :=
  c4_first_match_wins c4Nodes c4Idx 1 2 initZoneGeometries ∅ ["Улица А"] []
    "Улица Б" "green" ⟨45, 20⟩ ⟨46, 21⟩ (by decide) (by decide) (by decide)
    (by decide) (by decide) (by decide)

/-- C5: after any completed (successful) `process_zones` call, the set
returned by `get_missing_streets` and the stored found-street set are
disjoint, and their union is the full key set of the street-to-zone
index. -/
theorem c5_missing_found_partition (s s' : ProcState)
    (h : process_zones s = (s', .ok ())) :
    get_missing_streets s' ∩ s'.found_streets = ∅ ∧
    get_missing_streets s' ∪ s'.found_streets =
      (s'.street_to_zone.map Prod.fst).toFinset := by
  obtain ⟨zg, f, hagg, hstz, hfs⟩ := process_zones_ok s s' h
  have hsub : s'.found_streets ⊆ (s'.street_to_zone.map Prod.fst).toFinset := by
    rw [hstz, hfs]
    exact psg_found_subset s.graph s.street_to_zone zg f hagg
  constructor
  · rw [get_missing_streets]
    exact Finset.sdiff_inter_self _ _
  · rw [get_missing_streets]
    exact Finset.sdiff_union_of_subset hsub

/-- Concrete pre-state for the C5 witness. -/
def c5S : ProcState :=
  { target_point := DEFAULT_TARGET_POINT, tile_provider := "openstreetmap",
    street_to_zone := [("a", "red")], graph := some ⟨[(1, ⟨45, 20⟩)], []⟩,
    zone_geometries := [], found_streets := ∅ }

/-- Concrete post-state for the C5 witness. -/
def c5S2 : ProcState :=
  { c5S with zone_geometries := initZoneGeometries, found_streets := ∅ }

/-- C5 witness: the theorem applied to a concrete successful
`process_zones` run. -/
theorem c5_witness :
    get_missing_streets c5S2 ∩ c5S2.found_streets = ∅ ∧
    get_missing_streets c5S2 ∪ c5S2.found_streets =
      (c5S2.street_to_zone.map Prod.fst).toFinset :=
  c5_missing_found_partition c5S c5S2 rfl

/-- C6: on every graph with at least one node the aggregator returns a
result without raising, whatever the index; and an edge with an
endpoint missing from the node dict is skipped: its per-edge step
leaves the accumulator unchanged and processing continues. -/
theorem c6_total_on_nonempty (g : Graph) (idx : List (String × String))
    (h : g.nodes ≠ []) :
    (∃ zg f, process_street_geometries (some g) idx = .ok (zg, f)) ∧
    (∀ (acc : ZoneGeoms × Finset String) (e : Edge),
      lookupNode g.nodes e.u = none ∨ lookupNode g.nodes e.v = none →
      processEdge g.nodes idx acc e = acc) := by
  constructor
  · exact ⟨_, _, by rw [psg_ok_of_nonempty g idx h]⟩
  · intro acc e hmiss
    rw [processEdge]
    split
    · rfl
    · exact matchCands_missing_node g.nodes idx e.u e.v acc hmiss _

/-- Concrete graph for the C6 witness: one node, one edge whose far
endpoint (id 99) is missing from the node dict. -/
def c6G : Graph := ⟨[(1, ⟨45, 20⟩)], [⟨1, 99, some (.one "Улица Б")⟩]⟩

/-- Concrete index for the C6 witness. -/
def c6Idx : List (String × String) := [("улица б", "green")]

/-- C6 witness: the theorem applied to the concrete graph with a
dangling edge; the aggregator still succeeds and the dangling edge is
a no-op. -/
theorem c6_witness :
    (∃ zg f, process_street_geometries (some c6G) c6Idx = .ok (zg, f)) ∧
    processEdge c6G.nodes c6Idx (initZoneGeometries, ∅)
        ⟨1, 99, some (.one "Улица Б")⟩ = (initZoneGeometries, ∅) :=
  ⟨(c6_total_on_nonempty c6G c6Idx (by decide)).1,
   (c6_total_on_nonempty c6G c6Idx (by decide)).2 (initZoneGeometries, ∅)
     ⟨1, 99, some (.one "Улица Б")⟩ (Or.inr (by decide))⟩

/-- C7: passing `None` or a zero-node graph to the aggregator fails
with the empty-graph `ValueError` and yields no result. -/
theorem c7_empty_graph_error (og : Option Graph) (idx : List (String × String))
    (h : og = none ∨ ∃ g, og = some g ∧ g.nodes = []) :
    process_street_geometries og idx = .error emptyGraphMsg := by
  rcases h with rfl | ⟨g, rfl, hg⟩
  · rfl
  · simp [process_street_geometries, hg]

/-- C7 witness: the theorem applied to `None` and to a concrete
zero-node graph. -/
theorem c7_witness :
    process_street_geometries none [("a", "red")] = .error emptyGraphMsg ∧
    process_street_geometries (some ⟨[], [⟨1, 2, none⟩]⟩) [("a", "red")] =
      .error emptyGraphMsg :=
  ⟨c7_empty_graph_error none [("a", "red")] (Or.inl rfl),
   c7_empty_graph_error (some ⟨[], [⟨1, 2, none⟩]⟩) [("a", "red")]
     (Or.inr ⟨⟨[], [⟨1, 2, none⟩]⟩, rfl, rfl⟩)⟩

/-! ### Claim theorems: constructor validation -/

/-- C1 counterexample: `_validate_config` performs no range check, so
construction with latitude 95 (outside [-90, 90]) and a known tile
provider succeeds instead of failing with a `ConfigError`. -/
theorem c1_counterexample :
    isOkE (initProcessor
        (some [PyScalar.num 95, PyScalar.num ((2039373 : Rat) / 100000)])
        (some "openstreetmap")) = true ∧
    ¬ ((95 : Rat) ≤ 90) := by
  constructor
  · rfl
  · decide

/-- C1 amended: for a truthy provided centre and provider, construction
succeeds exactly when the centre is a 2-element numeric sequence
(no range constraint on the values) and the provider is a member of
the known provider set; either violation fails with a `ConfigError`
`ValueError`. -/
theorem c1_validation_structural_only (p : List PyScalar) (s : String)
    (hp : p ≠ []) (hs : s ≠ "") :
    isOkE (initProcessor (some p) (some s)) = true ↔
      (validStructure p = true ∧ s ∈ TILE_PROVIDER_KEYS) := by
  have hrt : resolveTarget (some p) = p := by
    simp [resolveTarget, hp]
  have hrp : resolveProvider (some s) = s := by
    simp [resolveProvider, hs]
  simp only [initProcessor, hrt, hrp]
  cases hv : validStructure p with
  | false =>
    simp [hv, isOkE]
  | true =>
    by_cases hmem : s ∈ TILE_PROVIDER_KEYS
    · simp [hmem, isOkE]
    · simp [hmem, isOkE]

/-- C1 witness: the amended characterization applied at latitude 95
with the default provider; construction succeeds. -/
theorem c1_witness :
    isOkE (initProcessor (some [PyScalar.num 95, PyScalar.num 20])
      (some "openstreetmap")) = true :=
  (c1_validation_structural_only [PyScalar.num 95, PyScalar.num 20]
    "openstreetmap" (by decide) (by decide)).mpr ⟨by decide, by decide⟩

/-- C8 counterexample: a provided-but-invalid falsy argument pair (the
empty tuple as centre, the empty string as provider - neither passes
validation) does not fail construction; both are silently replaced by
the configured defaults before validation runs. -/
theorem c8_counterexample :
    isOkE (initProcessor (some []) (some "")) = true ∧
    providerOf (initProcessor (some []) (some "")) = some DEFAULT_TILE_PROVIDER ∧
    targetOf (initProcessor (some []) (some "")) = some DEFAULT_TARGET_POINT ∧
    validStructure [] = false ∧
    "" ∉ TILE_PROVIDER_KEYS := by
  refine ⟨rfl, rfl, rfl, rfl, by decide⟩

/-- C8 amended: for truthy provided-but-invalid arguments
construction does fail with the `ConfigError` `ValueError` naming the
field (invalid coordinates, or tile provider not found) and no
default is substituted; only falsy provided values (empty
tuple/string) are replaced by the defaults. -/
theorem c8_truthy_invalid_rejected :
    (∀ (p : List PyScalar) (os : Option String), p ≠ [] →
      validStructure p = false →
      initProcessor (some p) os = .error invalidCoordinatesMsg) ∧
    (∀ s : String, s ≠ "" → s ∉ TILE_PROVIDER_KEYS →
      initProcessor none (some s) = .error tileProviderNotFoundMsg) := by
  constructor
  · intro p os hp hv
    have hrt : resolveTarget (some p) = p := by simp [resolveTarget, hp]
    simp [initProcessor, hrt, hv]
  · intro s hs hmem
    have hrp : resolveProvider (some s) = s := by simp [resolveProvider, hs]
    simp [initProcessor, resolveTarget, hrp, hmem,
      show validStructure DEFAULT_TARGET_POINT = true from rfl]

/-- C8 witness: the amended theorem applied to a truthy 1-element
centre and a truthy unknown provider. -/
theorem c8_witness :
    initProcessor (some [PyScalar.nonNum]) none = .error invalidCoordinatesMsg ∧
    initProcessor none (some "nonexistent") = .error tileProviderNotFoundMsg :=
  ⟨c8_truthy_invalid_rejected.1 [PyScalar.nonNum] none (by decide) (by decide),
   c8_truthy_invalid_rejected.2 "nonexistent" (by decide) (by decide)⟩

/-! ### Claim theorems: process_zones failure atomicity -/

/-- If the aggregator fails, the stored graph was falsy. -/
lemma psg_error_graph_falsy (og : Option Graph) (idx : List (String × String))
    (e : String) (h : process_street_geometries og idx = .error e) :
    graphTruthy og = false := by
  cases og with
  | none => rfl
  | some g =>
    rw [process_street_geometries] at h
    by_cases hn : g.nodes.isEmpty = true
    · simp [graphTruthy, hn]
    · rw [if_neg hn] at h
      simp at h

/-- Concrete state holding a zero-node graph for the C9
counterexample. -/
def c9S : ProcState :=
  { target_point := DEFAULT_TARGET_POINT, tile_provider := "openstreetmap",
    street_to_zone := [("пупинова", "red")], graph := some ⟨[], []⟩,
    zone_geometries := [], found_streets := ∅ }

/-- C9 counterexample: on a state whose graph makes the aggregator
raise (a zero-node graph), `process_zones` raises the missing-data
`StateError` message, not the `DataError` wrap - the aggregator is
never reached because the `if not self.graph` precheck subsumes its
only failure condition. The fields are indeed retained (the whole
state is returned unchanged). -/
theorem c9_counterexample :
    process_street_geometries c9S.graph c9S.street_to_zone = .error emptyGraphMsg ∧
    process_zones c9S = (c9S, .error noMapDataMsg) ∧
    noMapDataMsg ≠ processZonesFailMsg := by
  refine ⟨rfl, rfl, by decide⟩

/-- C9 amended: whenever the aggregator would raise on the
processor's stored graph and index, `process_zones` raises - with the
missing-data `StateError` message, since the graph-presence precheck
subsumes the aggregator's empty-graph failure - and every field
retains exactly its pre-call value; moreover on every error path
whatsoever `process_zones` returns the state unchanged. -/
theorem c9_atomic_failure :
    (∀ (s : ProcState) (e : String),
      process_street_geometries s.graph s.street_to_zone = .error e →
      process_zones s = (s, .error noMapDataMsg)) ∧
    (∀ (s : ProcState) (e : String), (process_zones s).2 = .error e →
      (process_zones s).1 = s) := by
  constructor
  · intro s e h
    have hg := psg_error_graph_falsy s.graph s.street_to_zone e h
    rw [process_zones, if_neg (by rw [hg]; exact Bool.false_ne_true)]
  · intro s e h
    by_cases hg : graphTruthy s.graph = true
    · rw [process_zones, if_pos hg] at h ⊢
      cases hagg : process_street_geometries s.graph s.street_to_zone with
      | error e2 => simp [hagg]
      | ok p =>
        obtain ⟨zg, f⟩ := p
        rw [hagg] at h
        simp at h
    · rw [process_zones, if_neg hg]

/-- C9 witness: the amended theorem applied to the concrete
zero-node-graph state. -/
theorem c9_witness :
    process_zones c9S = (c9S, .error noMapDataMsg) ∧
    (process_zones c9S).1 = c9S :=
  ⟨c9_atomic_failure.1 c9S emptyGraphMsg rfl,
   c9_atomic_failure.2 c9S noMapDataMsg rfl⟩

/-! ### Helper lemmas about the retry loop -/

/-- If every attempt from `a` up to (excluding) `mr` fails and the
attempt at `mr` returns a non-empty graph, the loop from attempt `a`
ends successfully with that graph after `mr - a + 1` fetches. -/
lemma fetchLoop_ok_last (f : Int → FetchOutcome) (mr : Int) (gl : Graph)
    (hgl : gl.nodes ≠ []) (hmr : f mr = .ok gl) :
    ∀ (k : Nat) (a : Int) (g : Option Graph), (mr - a).toNat = k → 1 ≤ a →
      a ≤ mr → (∀ i : Int, a ≤ i → i < mr → failOutcome (f i)) →
      fetchLoop f mr a g = (some gl, .ok (), (mr - a + 1).toNat) := by
  intro k
  induction k with
  | zero =>
    intro a g hk h1 h2 _hfail
    have ha : a = mr := by omega
    subst ha
    rw [fetchLoop, dif_neg (show ¬ a < a by omega)]
    have hne : gl.nodes.isEmpty = false := by
      cases hn : gl.nodes with
      | nil => exact absurd hn hgl
      | cons x t => rfl
    simp only [hmr, hne, Bool.false_eq_true, if_false, Prod.mk.injEq,
      eq_self_iff_true, true_and, and_true]
    omega
  | succ n ih =>
    intro a g hk h1 h2 hfail
    have halt : a < mr := by omega
    rw [fetchLoop, dif_neg (show ¬ mr < a by omega)]
    have hfa := hfail a le_rfl halt
    cases hfo : f a with
    | ok g0 =>
      have hg0 : g0.nodes = [] := by rw [hfo] at hfa; exact hfa
      have hg0e : g0.nodes.isEmpty = true := by simp [hg0]
      have ihh := ih (a + 1) (some g0) (by omega) (by omega) (by omega)
        (fun i hi1 hi2 => hfail i (by omega) hi2)
      simp only [hfo, hg0e, eq_self_iff_true, if_true,
        if_neg (show ¬ a = mr by omega), ihh, Prod.mk.injEq, true_and, and_true]
      omega
    | exn msg =>
      have ihh := ih (a + 1) g (by omega) (by omega) (by omega)
        (fun i hi1 hi2 => hfail i (by omega) hi2)
      simp only [hfo, if_neg (show ¬ a = mr by omega), ihh, Prod.mk.injEq,
        eq_self_iff_true, true_and, and_true]
      omega

/-- If every attempt from `a` up to and including `mr` fails, the
loop from attempt `a` makes `mr - a + 1` fetches and fails with the
classification of the final attempt's outcome. -/
lemma fetchLoop_all_fail (f : Int → FetchOutcome) (mr : Int) :
    ∀ (k : Nat) (a : Int) (g : Option Graph), (mr - a).toNat = k → 1 ≤ a →
      a ≤ mr → (∀ i : Int, a ≤ i → i ≤ mr → failOutcome (f i)) →
      (fetchLoop f mr a g).2.1 = .error (classifyFailure (f mr)) ∧
      (fetchLoop f mr a g).2.2 = (mr - a + 1).toNat := by
  intro k
  induction k with
  | zero =>
    intro a g hk h1 h2 hfail
    have ha : a = mr := by omega
    subst ha
    have hfa := hfail a le_rfl le_rfl
    rw [fetchLoop, dif_neg (show ¬ a < a by omega)]
    cases hfo : f a with
    | ok g0 =>
      have hg0 : g0.nodes = [] := by rw [hfo] at hfa; exact hfa
      have hg0e : g0.nodes.isEmpty = true := by simp [hg0]
      simp only [hfo, hg0e, eq_self_iff_true, if_true, classifyFailure,
        Prod.mk.injEq, true_and, and_true]
      omega
    | exn msg =>
      simp only [hfo, eq_self_iff_true, if_true, Prod.mk.injEq,
        true_and, and_true]
      omega
  | succ n ih =>
    intro a g hk h1 h2 hfail
    have halt : a < mr := by omega
    have hfa := hfail a le_rfl (le_of_lt halt)
    rw [fetchLoop, dif_neg (show ¬ mr < a by omega)]
    cases hfo : f a with
    | ok g0 =>
      have hg0 : g0.nodes = [] := by rw [hfo] at hfa; exact hfa
      have hg0e : g0.nodes.isEmpty = true := by simp [hg0]
      obtain ⟨ih1, ih2⟩ := ih (a + 1) (some g0) (by omega) (by omega) (by omega)
        (fun i hi1 hi2 => hfail i (by omega) hi2)
      simp only [hfo, hg0e, eq_self_iff_true, if_true,
        if_neg (show ¬ a = mr by omega), ih1, ih2, Prod.mk.injEq,
        true_and, and_true]
      omega
    | exn msg =>
      obtain ⟨ih1, ih2⟩ := ih (a + 1) g (by omega) (by omega) (by omega)
        (fun i hi1 hi2 => hfail i (by omega) hi2)
      simp only [hfo, if_neg (show ¬ a = mr by omega), ih1, ih2,
        Prod.mk.injEq, true_and, and_true]
      omega

/-! ### Claim theorems: the retry policy -/

/-- C3: for every `max_retries` at least 1, a collaborator failing on
every attempt before the last and returning a non-empty graph on the
last allowed attempt makes `fetch_map_data` return without raising,
with exactly `max_retries` attempts and that last graph recorded in
the graph field; a collaborator failing on every allowed attempt
(exceptions, or zero-node graphs, which count as failures) makes it
fail after exactly `max_retries` attempts, with a `ConnectionError`
when the final failure's lower-cased text contains "connection" and
the no-streets `ValueError` otherwise (classifyFailure). -/
theorem c3_retry_policy (f : Int → FetchOutcome) (mr : Int) (s : ProcState)
    (h1 : 1 ≤ mr) :
    (∀ gl : Graph, gl.nodes ≠ [] → f mr = .ok gl →
      (∀ i : Int, 1 ≤ i → i < mr → failOutcome (f i)) →
      fetch_map_data f mr s = ({ s with graph := some gl }, .ok (), mr.toNat)) ∧
    ((∀ i : Int, 1 ≤ i → i ≤ mr → failOutcome (f i)) →
      (fetch_map_data f mr s).2.1 = .error (classifyFailure (f mr)) ∧
      (fetch_map_data f mr s).2.2 = mr.toNat) := by
  constructor
  · intro gl hgl hmr hfail
    have h := fetchLoop_ok_last f mr gl hgl hmr (mr - 1).toNat 1 s.graph rfl
      le_rfl h1 (fun i hi1 hi2 => hfail i hi1 hi2)
    simp only [fetch_map_data, h, Prod.mk.injEq, eq_self_iff_true,
      true_and, and_true]
    omega
  · intro hfail
    obtain ⟨ha, hb⟩ := fetchLoop_all_fail f mr (mr - 1).toNat 1 s.graph rfl
      le_rfl h1 hfail
    refine ⟨ha, ?_⟩
    show (fetchLoop f mr 1 s.graph).2.2 = mr.toNat
    rw [hb]; omega

/-- Concrete non-empty graph for the C3 witness. -/
def c3Graph : Graph := ⟨[(1, ⟨45, 20⟩)], []⟩

/-- Collaborator failing twice, then succeeding on attempt 3. -/
def c3FSucc : Int → FetchOutcome :=
  fun i => if i ≤ 2 then .exn "timeout" else .ok c3Graph

/-- Collaborator failing on every attempt with a network-flavoured
message. -/
def c3FFail : Int → FetchOutcome := fun _ => .exn "Connection refused"

/-- Concrete fresh processor state for the C3 witness. -/
def c3S : ProcState :=
  { target_point := DEFAULT_TARGET_POINT, tile_provider := "openstreetmap",
    street_to_zone := [], graph := none, zone_geometries := [],
    found_streets := ∅ }

/-- C3 witness: the theorem applied to the spec's own scenario
(`max_retries = 3`, fail twice then succeed; and always-fail with a
connection-flavoured message, classified as `ConnectionError`). -/
theorem c3_witness :
    fetch_map_data c3FSucc 3 c3S = ({ c3S with graph := some c3Graph }, .ok (), 3) ∧
    (fetch_map_data c3FFail 3 c3S).2.1 = .error (.connErr mapDataFetchFailedMsg) ∧
    (fetch_map_data c3FFail 3 c3S).2.2 = 3 := by
  have hfail1 : ∀ i : Int, 1 ≤ i → i < 3 → failOutcome (c3FSucc i) := by
    intro i _h1 h2
    have hle : i ≤ 2 := by omega
    simp only [c3FSucc, if_pos hle, failOutcome]
  have hs := (c3_retry_policy c3FSucc 3 c3S (by omega)).1 c3Graph (by decide)
    (by decide) hfail1
  have hfail2 : ∀ i : Int, 1 ≤ i → i ≤ 3 → failOutcome (c3FFail i) := by
    intro i _ _
    simp only [c3FFail, failOutcome]
  have hf := (c3_retry_policy c3FFail 3 c3S (by omega)).2 hfail2
  exact ⟨hs, hf.1, hf.2⟩

/-- C10: calling `fetch_map_data` with `max_retries` at most 0 makes
zero fetch attempts and returns without raising, leaving the state
(including the graph field) unchanged; on a state that still has no
graph, a subsequent `process_zones` call then fails with the
missing-data `StateError` message. -/
theorem c10_zero_retries_noop (f : Int → FetchOutcome) (mr : Int)
    (s : ProcState) (hmr : mr ≤ 0) :
    fetch_map_data f mr s = (s, .ok (), 0) ∧
    (s.graph = none → process_zones s = (s, .error noMapDataMsg)) := by
  constructor
  · have h : fetchLoop f mr 1 s.graph = (s.graph, .ok (), 0) := by
      rw [fetchLoop, dif_pos (by omega)]
    simp only [fetch_map_data, h]
  · intro hg
    rw [process_zones, if_neg (by rw [hg]; exact Bool.false_ne_true)]

/-- Concrete fresh processor state for the C10 witness. -/
def c10S : ProcState :=
  { target_point := DEFAULT_TARGET_POINT, tile_provider := "openstreetmap",
    street_to_zone := [], graph := none, zone_geometries := [],
    found_streets := ∅ }

/-- C10 witness: the theorem applied with `max_retries = 0` on a fresh
state; zero attempts, unchanged state, and the subsequent
`process_zones` failure. -/
theorem c10_witness :
    fetch_map_data (fun _ => .exn "x") 0 c10S = (c10S, .ok (), 0) ∧
    process_zones c10S = (c10S, .error noMapDataMsg) :=
  ⟨(c10_zero_retries_noop (fun _ => .exn "x") 0 c10S (by omega)).1,
   (c10_zero_retries_noop (fun _ => .exn "x") 0 c10S (by omega)).2 rfl⟩

end PZ
